import Mathlib

/-!
Verification of the GitHub Repository Analyzer notebook (`Accelerator_Info.ipynb`).

The notebook is sequential glue around two external services (a GitHub
metadata client and an Azure OpenAI completion client).  We embed the
notebook's own functions shallowly:

* Python values flowing through the pipeline (AI answers, cells of the
  comparison table) become the inductive type `Value`;
* Python `dict`s become association lists `List (String × Value)` with
  Python's lookup / update-or-append semantics (`dictGet`, `dictSet`,
  `dictMerge`);
* fallible attribute access (`x.get(...)` raising `AttributeError` when `x`
  is not a dict) becomes `getAttr` returning `Except String Value`;
* the external clients are parameters (`fetch`, `extract`) of the
  orchestrator functions, since the notebook treats them as black boxes.

Each notebook function is translated under its source name:
`format_analysis_results`, `analyze_github_repository`,
`analyze_multiple_repositories`, and the cell-normalization step of the
`answers_df` cell (`answerCell`, `replaceYesNo`).
-/

set_option autoImplicit false

namespace AcceleratorInfo

/-- A dynamic (Python-like) value as it flows through the pipeline: AI
answers are booleans, numbers, strings or lists of strings; per-question
records and whole responses are dicts; `vNull` models Python `None`
(including pandas missing cells). -/
inductive Value where
  | vStr (s : String)
  | vBool (b : Bool)
  | vNum (n : Int)
  | vList (xs : List String)
  | vNull
  | vDict (fields : List (String × Value))

/-- Python `dict` membership test on the embedded association list:
first binding of the key wins (Python dicts have unique keys). -/
def dictGet : List (String × Value) → String → Option Value
  | [], _ => none
  | p :: rest, k => if p.1 = k then some p.2 else dictGet rest k

/-- Python `d[k] = v` / `{**d, k: v}` update semantics: replace the value in
place when the key is present, append the binding otherwise. -/
def dictSet : List (String × Value) → String → Value → List (String × Value)
  | [], k, v => [(k, v)]
  | p :: rest, k, v => if p.1 = k then (k, v) :: rest else p :: dictSet rest k v

/-- Python `{**d, **e}`: fold the updates of `e` over `d` in order. -/
def dictMerge (d e : List (String × Value)) : List (String × Value) :=
  e.foldl (fun acc p => dictSet acc p.1 p.2) d

/-- Python `isinstance(x, dict)`. -/
def isDict : Value → Bool
  | .vDict _ => true
  | _ => false

/-- The bindings of a dict value (empty for non-dicts; only used under an
`isDict` guard). -/
def fieldsOf : Value → List (String × Value)
  | .vDict d => d
  | _ => []

/-- A single quote character, used by the Python `repr` of strings. -/
def sq : String := String.singleton (Char.ofNat 39)

mutual

/-- Python `str(x)` as used by the notebook's f-strings: strings render
bare, booleans as `True`/`False`, `None` as `None`, lists and dicts with
`repr`-quoted string elements. -/
def valueStr : Value → String
  | .vStr s => s
  | .vBool b => cond b "True" "False"
  | .vNum n => toString n
  | .vNull => "None"
  | .vList xs => "[" ++ String.intercalate ", " (xs.map (fun s => sq ++ s ++ sq)) ++ "]"
  | .vDict fs => "\x7b" ++ fieldsStr fs ++ "\x7d"

/-- The comma-separated rendering of a dict body, as Python `str` prints it. -/
def fieldsStr : List (String × Value) → String
  | [] => ""
  | [(k, v)] => sq ++ k ++ sq ++ ": " ++ valueStr v
  | (k, v) :: p :: rest => sq ++ k ++ sq ++ ": " ++ valueStr v ++ ", " ++ fieldsStr (p :: rest)

end

/-- Python `x.get(k, dflt)`: succeeds with the looked-up value (or the
default) when `x` is a dict, raises `AttributeError` otherwise — this is
the attribute-access failure observed in the notebook when an AI response
field degrades to a bare string. -/
def getAttr (x : Value) (k : String) (dflt : Value) : Except String Value :=
  match x with
  | .vDict d => .ok ((dictGet d k).getD dflt)
  | _ => .error "AttributeError"

/-- Python `x.get(k)` (no default): `None` when the key is missing.  Only
reached under an `isinstance(x, dict)` guard in the source. -/
def dictGetNone (x : Value) (k : String) : Value :=
  match x with
  | .vDict d => (dictGet d k).getD .vNull
  | _ => .vNull

/-- One cell of `format_analysis_results` of the shape
`f"{results.get(key, {}).get('answer', 'Unknown')} ({results.get(key, {}).get('confidence_level', 'low')})"`:
the outer lookup on the result mapping defaults to the empty dict, the two
inner `.get` calls raise `AttributeError` when the field is not a dict. -/
def confCell (results : List (String × Value)) (key : String) : Except String Value := do
  let a ← getAttr ((dictGet results key).getD (.vDict [])) "answer" (.vStr "Unknown")
  let c ← getAttr ((dictGet results key).getD (.vDict [])) "confidence_level" (.vStr "low")
  pure (.vStr (valueStr a ++ " (" ++ valueStr c ++ ")"))

/-- A narrative cell of `format_analysis_results`:
`results.get(key, {}).get('answer', dflt)` — the raw answer value, no
confidence suffix. -/
def rawCell (results : List (String × Value)) (key : String) (dflt : Value) :
    Except String Value :=
  getAttr ((dictGet results key).getD (.vDict [])) "answer" dflt

/-- The column labels of the dictionary built by `format_analysis_results`,
in source order. -/
def formattedColumns : List String :=
  ["Repository URL", "RBAC Enabled?", "Azure Gov Ready?", "Azure Secret Ready",
   "Chat History?", "# of Azure Services?", "Arch Diagram",
   "Differentiators from AskSage", "Differentiators from NIPRGPT",
   "Differentiators from CamoGPT", "Deployment Method", "Costs Estimate", "Notes"]

/-- `format_analysis_results(repo_url, results)` from the notebook: builds
the formatted row dictionary entry by entry, in source order; the first
field whose `.get` chain hits a non-dict value aborts with
`AttributeError`, exactly as the Python dict literal evaluates. -/
def format_analysis_results (repo_url : String) (results : List (String × Value)) :
    Except String (List (String × Value)) := do
  let rbac ← confCell results "rbac_enabled"
  let gov ← confCell results "azure_gov_ready"
  let secret ← confCell results "azure_secret_ready"
  let chat ← confCell results "chat_history"
  let services ← confCell results "azure_services_count"
  let arch ← confCell results "architecture_diagram_present"
  let asksage ← rawCell results "differentiators_from_asksage" (.vStr "Unknown")
  let niprgpt ← rawCell results "differentiators_from_niprgpt" (.vStr "Unknown")
  let camogpt ← rawCell results "differentiators_from_camogpt" (.vStr "Unknown")
  let deploy ← confCell results "deployment_method"
  let costs ← confCell results "costs_estimate"
  let notes ← rawCell results "notes" (.vStr "")
  pure [("Repository URL", .vStr repo_url), ("RBAC Enabled?", rbac),
        ("Azure Gov Ready?", gov), ("Azure Secret Ready", secret),
        ("Chat History?", chat), ("# of Azure Services?", services),
        ("Arch Diagram", arch), ("Differentiators from AskSage", asksage),
        ("Differentiators from NIPRGPT", niprgpt),
        ("Differentiators from CamoGPT", camogpt), ("Deployment Method", deploy),
        ("Costs Estimate", costs), ("Notes", notes)]

/-- An analysis-result mapping (Python dict from question key to the
per-question value returned by the AI). -/
abbrev Row := List (String × Value)

/-- `analyze_github_repository(repo_url)`: sequences the fetch stage and the
extraction stage, catching the exception of each stage, printing its
message and returning `None`.  The external clients are parameters; the
returned pair is (return value, printed lines). -/
def analyze_github_repository {α : Type} (fetch : String → Except String α)
    (extract : α → Except String Row) (repo_url : String) :
    Option Row × List String :=
  let log0 := ["Analyzing repository: " ++ repo_url,
               "Extracting repository information..."]
  match fetch repo_url with
  | .error e => (none, log0 ++ ["Error extracting repository data: " ++ e])
  | .ok repo_data =>
    let log1 := log0 ++ ["Analyzing repository with Azure OpenAI..."]
    match extract repo_data with
    | .error e => (none, log1 ++ ["Error during OpenAI analysis: " ++ e])
    | .ok analysis_results => (some analysis_results, log1 ++ ["Analysis complete!"])

/-- Python `s.rstrip('/')` on the character list: drop trailing slashes. -/
def rstripSlash (cs : List Char) : List Char :=
  (cs.reverse.dropWhile (fun c => c = Char.ofNat 47)).reverse

/-- Python `s.split('/')`: split into slash-separated segments, keeping
empty segments, `[""]` for the empty string. -/
def splitSlash : List Char → List (List Char)
  | [] => [[]]
  | c :: rest =>
    match splitSlash rest with
    | [] => [[]]
    | seg :: segs =>
      if c = Char.ofNat 47 then [] :: seg :: segs else (c :: seg) :: segs

/-- `url.rstrip('/').split('/')[-1]`: strip trailing slashes, take the last
slash-separated segment. -/
def repoNameOf (url : String) : String :=
  String.mk ((splitSlash (rstripSlash url.data)).getLastD [])

/-- `{"Repository Name": repo_name, **result}`: the batch row for one
successfully analyzed repository. -/
def mkRow (url : String) (result : Row) : Row :=
  dictMerge [("Repository Name", .vStr (repoNameOf url))] result

/-- The loop body of `analyze_multiple_repositories`: a row is appended
exactly when the single-repository analysis returns a truthy (non-`None`,
non-empty) result. -/
def rowStep {α : Type} (fetch : String → Except String α)
    (extract : α → Except String Row) (url : String) : Option Row :=
  match (analyze_github_repository fetch extract url).fst with
  | some result => if result.isEmpty then none else some (mkRow url result)
  | none => none

/-- `analyze_multiple_repositories(repo_urls)`: analyze each URL in order,
append a named row per truthy result; return `None` and print
`No valid analysis results` when no row was collected, otherwise the rows
and the success message.  (The `for` loop appending to `results` is the
`filterMap` of the loop body over the input order.) -/
def analyze_multiple_repositories {α : Type} (fetch : String → Except String α)
    (extract : α → Except String Row) (repo_urls : List String) :
    Option (List Row) × String :=
  let results := repo_urls.filterMap (rowStep fetch extract)
  if results.isEmpty then (none, "No valid analysis results")
  else (some results,
        "Analysis of " ++ toString results.length ++
          " repositories saved to data/repository_comparison.csv")

/-- One step of the pandas column-union: append the keys of the next row
dict that have not appeared yet, keeping first-appearance order. -/
def colStep (acc : List String) (r : Row) : List String :=
  acc ++ ((r.map Prod.fst).filter (fun k => !(acc.contains k)))

/-- The column list `pd.DataFrame(results)` derives from a list of row
dicts: the union of the rows' keys, in order of first appearance. -/
def columnsOf (rows : List Row) : List String :=
  rows.foldl colStep []

/-- One row of the constructed DataFrame: every column of the table, with
the cell `NaN` (embedded as `vNull`) when the row dict lacks the key. -/
def alignRow (cols : List String) (r : Row) : Row :=
  cols.map (fun k => (k, (dictGet r k).getD .vNull))

/-- `pd.DataFrame(results)`: align every collected row dict to the unioned
column list, filling missing cells with `NaN`. -/
def pdDataFrame (rows : List Row) : List Row :=
  rows.map (alignRow (columnsOf rows))

/-- The comparison table of a batch run: the DataFrame the source builds
from the collected rows (`df = pd.DataFrame(results)` followed by
`df.set_index("Repository Name", inplace=True)`, which keeps the
repository identity leftmost as the index; here it stays the first
column). -/
def comparisonTable {α : Type} (fetch : String → Except String α)
    (extract : α → Except String Row) (repo_urls : List String) :
    Option (List Row) :=
  ((analyze_multiple_repositories fetch extract repo_urls).fst).map pdDataFrame

/-- Modelled from the spec: the QuestionSpec catalog keys in
catalog-declared order (the catalog lives in `utils/openai_helper.py`,
which is not among the sources; spec section 6 fixes the keys). -/
def questionSpecKeys : List String :=
  ["rbac_enabled", "azure_gov_ready", "azure_secret_ready", "chat_history",
   "azure_services_count", "architecture_diagram_present",
   "differentiators_from_asksage", "differentiators_from_niprgpt",
   "differentiators_from_camogpt", "deployment_method", "costs_estimate",
   "notes"]

/-- The cell function of the `answers_df` cell:
`lambda x: x.get('answer') if isinstance(x, dict) else (x.get('value') if isinstance(x, dict) else x)`
— including the unreachable `value` fallback, which re-tests the same
`isinstance` that already failed. -/
def answerCell (x : Value) : Value :=
  if isDict x then dictGetNone x "answer"
  else if isDict x then dictGetNone x "value" else x

/-- `answers_df.replace({"Yes": True, "No": False})` acting on one cell:
the literal strings map to booleans, everything else is unchanged. -/
def replaceYesNo : Value → Value
  | .vStr s => if s = "Yes" then .vBool true else if s = "No" then .vBool false else .vStr s
  | v => v

/-- The complete boolean-normalization step on one cell: extract the
`answer` sub-field, then coerce `"Yes"`/`"No"`. -/
def normStep (x : Value) : Value := replaceYesNo (answerCell x)

/-- Modelled from the spec: the shape of one structured answer produced by
the Answer Extractor (`utils/openai_helper.py`, not present in the
sources): the `answer` field is a boolean, number, string or list of
strings — never a nested dict. -/
inductive Answer where
  | aBool (b : Bool)
  | aNum (n : Int)
  | aStr (s : String)
  | aList (xs : List String)

/-- The embedded value of an answer. -/
def Answer.toValue : Answer → Value
  | .aBool b => .vBool b
  | .aNum n => .vNum n
  | .aStr s => .vStr s
  | .aList xs => .vList xs

/-- Modelled from the spec: an `AnswerRecord`
`{answer, explanation, confidence}` as parsed from the AI response — the
per-question object stored in each cell of the comparison table. -/
structure AnswerRecord where
  answer : Answer
  explanation : String
  confidence : String

/-- The dict value of an `AnswerRecord`, as it sits in a comparison-table
cell. -/
def AnswerRecord.toValue (r : AnswerRecord) : Value :=
  .vDict [("answer", r.answer.toValue), ("explanation", .vStr r.explanation),
          ("confidence", .vStr r.confidence)]

/-- A cell of an `AnalysisResult`-derived row: either a structured
`AnswerRecord` dict, or the missing-cell placeholder `None`/`NaN` that the
table constructor fills in for absent question keys. -/
def derivedCell (v : Value) : Prop :=
  (∃ r : AnswerRecord, v = r.toValue) ∨ v = .vNull


/-! ### Helper lemmas about the embedded dict operations -/

/-- Bind on a successful `Except` computation reduces. -/
theorem ok_bind {α β : Type} (a : α) (f : α → Except String β) :
    (Except.ok a >>= f : Except String β) = f a := rfl

/-- `pure` on `Except` is `Except.ok`. -/
theorem pure_ok {α : Type} (a : α) : (pure a : Except String α) = Except.ok a := rfl

/-- A successful `dictGet` returns the value of some binding of the dict. -/
theorem dictGet_mem {m : List (String × Value)} {k : String} {v : Value}
    (h : dictGet m k = some v) : ∃ p, p ∈ m ∧ p.2 = v := by
  induction m with
  | nil => simp [dictGet] at h
  | cons p rest ih =>
    by_cases hk : p.1 = k
    · refine ⟨p, List.mem_cons_self p rest, ?_⟩
      simp [dictGet, hk] at h
      exact h
    · simp only [dictGet, hk, if_false] at h
      obtain ⟨q, hq, hv⟩ := ih h
      exact ⟨q, List.mem_cons_of_mem p hq, hv⟩

/-- When a key is absent, Python dict update appends the binding. -/
theorem dictSet_append {l : List (String × Value)} {k : String} (v : Value)
    (h : k ∉ l.map Prod.fst) : dictSet l k v = l ++ [(k, v)] := by
  induction l with
  | nil => rfl
  | cons p rest ih =>
    simp only [List.map_cons, List.mem_cons] at h
    push_neg at h
    simp only [dictSet]
    rw [if_neg h.1.symm, ih h.2, List.cons_append]

/-- Merging a dict whose keys are fresh and distinct appends its bindings. -/
theorem dictMerge_append {d e : List (String × Value)}
    (hfresh : ∀ p ∈ e, p.1 ∉ d.map Prod.fst) (hnd : (e.map Prod.fst).Nodup) :
    dictMerge d e = d ++ e := by
  induction e generalizing d with
  | nil => simp [dictMerge]
  | cons p rest ih =>
    simp only [List.map_cons, List.nodup_cons] at hnd
    have hp : p.1 ∉ d.map Prod.fst := hfresh p (List.mem_cons_self p rest)
    have hstep : dictSet d p.1 p.2 = d ++ [(p.1, p.2)] := dictSet_append p.2 hp
    have hfresh' : ∀ q ∈ rest, q.1 ∉ (d ++ [(p.1, p.2)]).map Prod.fst := by
      intro q hq
      simp only [List.map_append, List.mem_append, List.map_cons, List.map_nil,
        List.mem_singleton]
      rintro (hd | hone)
      · exact hfresh q (List.mem_cons_of_mem p hq) hd
      · exact hnd.1 (hone ▸ List.mem_map_of_mem Prod.fst hq)
    have : dictMerge (d ++ [(p.1, p.2)]) rest = (d ++ [(p.1, p.2)]) ++ rest :=
      ih hfresh' hnd.2
    calc dictMerge d (p :: rest)
        = dictMerge (dictSet d p.1 p.2) rest := rfl
      _ = dictMerge (d ++ [(p.1, p.2)]) rest := by rw [hstep]
      _ = (d ++ [(p.1, p.2)]) ++ rest := this
      _ = d ++ (p :: rest) := by simp

/-- On a dict value, `getAttr` succeeds with the defaulted lookup. -/
theorem getAttr_of_isDict {x : Value} (k : String) (dflt : Value)
    (h : isDict x = true) :
    getAttr x k dflt = .ok ((dictGet (fieldsOf x) k).getD dflt) := by
  cases x with
  | vDict d => rfl
  | vStr s => simp [isDict] at h
  | vBool b => simp [isDict] at h
  | vNum n => simp [isDict] at h
  | vList xs => simp [isDict] at h
  | vNull => simp [isDict] at h

/-- Looking a key up in a mapping of per-question dict objects (defaulting
to the empty dict) always lands on a dict. -/
theorem isDict_getD {m : List (String × Value)}
    (h : ∀ p ∈ m, isDict p.2 = true) (key : String) :
    isDict ((dictGet m key).getD (.vDict [])) = true := by
  cases hk : dictGet m key with
  | none => rfl
  | some v =>
    obtain ⟨p, hp, hv⟩ := dictGet_mem hk
    simpa [Option.getD, hv] using h p hp

/-- The defaulted `answer` sub-field of one question of the result mapping,
when the field object is a dict. -/
def ansOf (m : List (String × Value)) (key : String) (dflt : Value) : Value :=
  (dictGet (fieldsOf ((dictGet m key).getD (.vDict []))) "answer").getD dflt

/-- The defaulted `confidence_level` sub-field of one question of the
result mapping, when the field object is a dict. -/
def confOf (m : List (String × Value)) (key : String) : Value :=
  (dictGet (fieldsOf ((dictGet m key).getD (.vDict []))) "confidence_level").getD
    (.vStr "low")

/-- The rendered confidence-bearing cell for one question. -/
def confCellVal (m : List (String × Value)) (key : String) : Value :=
  .vStr (valueStr (ansOf m key (.vStr "Unknown")) ++ " (" ++ valueStr (confOf m key) ++ ")")

/-- The full row `format_analysis_results` builds when every present field
object is a dict. -/
def formattedRow (repo_url : String) (m : List (String × Value)) :
    List (String × Value) :=
  [("Repository URL", .vStr repo_url),
   ("RBAC Enabled?", confCellVal m "rbac_enabled"),
   ("Azure Gov Ready?", confCellVal m "azure_gov_ready"),
   ("Azure Secret Ready", confCellVal m "azure_secret_ready"),
   ("Chat History?", confCellVal m "chat_history"),
   ("# of Azure Services?", confCellVal m "azure_services_count"),
   ("Arch Diagram", confCellVal m "architecture_diagram_present"),
   ("Differentiators from AskSage", ansOf m "differentiators_from_asksage" (.vStr "Unknown")),
   ("Differentiators from NIPRGPT", ansOf m "differentiators_from_niprgpt" (.vStr "Unknown")),
   ("Differentiators from CamoGPT", ansOf m "differentiators_from_camogpt" (.vStr "Unknown")),
   ("Deployment Method", confCellVal m "deployment_method"),
   ("Costs Estimate", confCellVal m "costs_estimate"),
   ("Notes", ansOf m "notes" (.vStr ""))]

/-- A confidence-bearing cell succeeds on a mapping of dict objects. -/
theorem confCell_ok {m : List (String × Value)}
    (h : ∀ p ∈ m, isDict p.2 = true) (key : String) :
    confCell m key = .ok (confCellVal m key) := by
  have hd := isDict_getD h key
  show (getAttr ((dictGet m key).getD (.vDict [])) "answer" (.vStr "Unknown") >>= _) = _
  rw [getAttr_of_isDict _ _ hd, ok_bind]
  show (getAttr ((dictGet m key).getD (.vDict [])) "confidence_level" (.vStr "low") >>= _) = _
  rw [getAttr_of_isDict _ _ hd, ok_bind]
  rfl

/-- A narrative cell succeeds on a mapping of dict objects. -/
theorem rawCell_ok {m : List (String × Value)}
    (h : ∀ p ∈ m, isDict p.2 = true) (key : String) (dflt : Value) :
    rawCell m key dflt = .ok (ansOf m key dflt) := by
  rw [rawCell, getAttr_of_isDict _ _ (isDict_getD h key)]
  rfl

/-- On a mapping of per-question dict objects, `format_analysis_results`
succeeds and returns exactly `formattedRow`. -/
theorem format_eq_of_dict_fields {m : List (String × Value)} (repo_url : String)
    (h : ∀ p ∈ m, isDict p.2 = true) :
    format_analysis_results repo_url m = .ok (formattedRow repo_url m) := by
  rw [format_analysis_results]
  rw [confCell_ok h "rbac_enabled", ok_bind]
  rw [confCell_ok h "azure_gov_ready", ok_bind]
  rw [confCell_ok h "azure_secret_ready", ok_bind]
  rw [confCell_ok h "chat_history", ok_bind]
  rw [confCell_ok h "azure_services_count", ok_bind]
  rw [confCell_ok h "architecture_diagram_present", ok_bind]
  rw [rawCell_ok h "differentiators_from_asksage" (.vStr "Unknown"), ok_bind]
  rw [rawCell_ok h "differentiators_from_niprgpt" (.vStr "Unknown"), ok_bind]
  rw [rawCell_ok h "differentiators_from_camogpt" (.vStr "Unknown"), ok_bind]
  rw [confCell_ok h "deployment_method", ok_bind]
  rw [confCell_ok h "costs_estimate", ok_bind]
  rw [rawCell_ok h "notes" (.vStr ""), ok_bind]
  rfl

/-- The collected rows of a batch run, whether or not any succeeded. -/
theorem batch_rows_getD {α : Type} (fetch : String → Except String α)
    (extract : α → Except String Row) (urls : List String) :
    ((analyze_multiple_repositories fetch extract urls).fst).getD []
      = urls.filterMap (rowStep fetch extract) := by
  rw [analyze_multiple_repositories]
  split
  · next h => simp_all [List.isEmpty_iff]
  · rfl

/-- A url contributes a truthy analysis result exactly when the
single-repository orchestrator returns a non-empty mapping for it. -/
def succeeds {α : Type} (fetch : String → Except String α)
    (extract : α → Except String Row) (url : String) : Bool :=
  match (analyze_github_repository fetch extract url).fst with
  | some result => !result.isEmpty
  | none => false

/-- The loop body produces a row exactly on success. -/
theorem rowStep_eq_of_succeeds {α : Type} {fetch : String → Except String α}
    {extract : α → Except String Row} {url : String}
    (h : succeeds fetch extract url = true) :
    rowStep fetch extract url
      = some (mkRow url (((analyze_github_repository fetch extract url).fst).getD [])) := by
  rw [succeeds] at h
  rw [rowStep]
  split
  · next r hr =>
    rw [hr] at h ⊢
    simp only [Bool.not_eq_true'] at h
    simp [h]
  · next hr => rw [hr] at h; simp at h

/-- The loop body produces no row exactly on failure. -/
theorem rowStep_eq_none_of_not_succeeds {α : Type} {fetch : String → Except String α}
    {extract : α → Except String Row} {url : String}
    (h : succeeds fetch extract url = false) :
    rowStep fetch extract url = none := by
  rw [succeeds] at h
  rw [rowStep]
  split
  · next r hr =>
    rw [hr] at h
    simp only [Bool.not_eq_false'] at h
    simp [h]
  · next hr => rfl

/-- Rows of a batch run are the rows of the succeeding urls, in input
order. -/
theorem batch_rows_filter {α : Type} (fetch : String → Except String α)
    (extract : α → Except String Row) (urls : List String) :
    urls.filterMap (rowStep fetch extract)
      = (urls.filter (succeeds fetch extract)).map
          (fun u => mkRow u (((analyze_github_repository fetch extract u).fst).getD [])) := by
  induction urls with
  | nil => rfl
  | cons u rest ih =>
    rw [List.filterMap_cons, List.filter_cons]
    cases hs : succeeds fetch extract u with
    | true => rw [rowStep_eq_of_succeeds hs]; simp [ih]
    | false => rw [rowStep_eq_none_of_not_succeeds hs]; simp [ih]


/-! ### Helper lemmas about the normalization step -/

/-- The cell lambda of the `answers_df` cell collapses to its first two
branches: the `value` fallback sits behind the same `isinstance` test that
already failed, so it is dead code. -/
theorem answerCell_elim (x : Value) :
    answerCell x = if isDict x then dictGetNone x "answer" else x := by
  rw [answerCell]
  cases h : isDict x <;> simp [h]

/-- A non-dict cell passes through the extraction lambda unchanged. -/
theorem answerCell_of_not_dict {x : Value} (h : isDict x = false) :
    answerCell x = x := by
  rw [answerCell_elim, h]
  rfl

/-- The `replace` coercion never produces the strings it replaces, so it is
idempotent on every value. -/
theorem replaceYesNo_idem (x : Value) :
    replaceYesNo (replaceYesNo x) = replaceYesNo x := by
  cases x with
  | vStr s =>
    rw [replaceYesNo]
    by_cases h1 : s = "Yes"
    · simp [h1, replaceYesNo]
    · by_cases h2 : s = "No" <;> simp [h1, h2, replaceYesNo]
  | vBool b => rfl
  | vNum n => rfl
  | vList xs => rfl
  | vNull => rfl
  | vDict fs => rfl

/-- The `replace` coercion never turns a non-dict into a dict. -/
theorem isDict_replaceYesNo {x : Value} (h : isDict x = false) :
    isDict (replaceYesNo x) = false := by
  cases x with
  | vStr s =>
    rw [replaceYesNo]
    by_cases h1 : s = "Yes"
    · simp [h1, isDict]
    · by_cases h2 : s = "No" <;> simp [h1, h2, isDict]
  | vDict fs => simp [isDict] at h
  | vBool b => exact h
  | vNum n => exact h
  | vList xs => exact h
  | vNull => exact h

/-- An extracted answer value is never a dict. -/
theorem Answer.toValue_not_dict (a : Answer) : isDict a.toValue = false := by
  cases a <;> rfl

/-- Extracting the `answer` sub-field of a structured `AnswerRecord` cell
yields its answer value. -/
theorem answerCell_record (r : AnswerRecord) :
    answerCell r.toValue = r.answer.toValue := rfl

/-- One application of the normalization step on an
`AnalysisResult`-derived cell is a fixed point of the step. -/
theorem normStep_idem_of_derived {v : Value} (h : derivedCell v) :
    normStep (normStep v) = normStep v := by
  have key : ∀ w : Value, isDict w = false →
      normStep (replaceYesNo w) = replaceYesNo w := by
    intro w hw
    rw [normStep, answerCell_of_not_dict (isDict_replaceYesNo hw), replaceYesNo_idem]
  rcases h with ⟨r, rfl⟩ | rfl
  · have h1 : normStep r.toValue = replaceYesNo r.answer.toValue := by
      rw [normStep, answerCell_record]
    rw [h1]
    exact key r.answer.toValue (Answer.toValue_not_dict r.answer)
  · have h1 : normStep Value.vNull = replaceYesNo Value.vNull := rfl
    rw [h1]
    exact key .vNull rfl


/-! ### Concrete client instances used by witnesses and counterexamples -/

/-- A fetch stage that always succeeds, passing the url through. -/
def okFetch : String → Except String String := fun u => .ok u

/-- A fetch stage that always fails. -/
def errFetch : String → Except String String := fun _ => .error "boom"

/-- A fetch stage that fails only on the url `urlB`. -/
def branchFetch : String → Except String String :=
  fun u => if u = "urlB" then .error "boom" else .ok u

/-- An extraction stage that always returns the one-question mapping
`{notes: None}`. -/
def notesExtract : String → Except String Row := fun _ => .ok [("notes", Value.vNull)]

/-- An extraction stage that always fails. -/
def errExtract : String → Except String Row := fun _ => .error "bad response"

/-- An extraction stage whose response keys depend on the repository. -/
def branchExtract : String → Except String Row := fun s =>
  if s = "https://github.com/org/alpha" then .ok [("rbac_enabled", Value.vNull)]
  else .ok [("notes", Value.vNull)]

/-! ### Claims -/

/-- Claim C1 (code bug): the spec requires the Formatter to tolerate a
question field that is a bare string and degrade the cell to
`Unknown (low)`, but `format_analysis_results` chains `.get` directly on
the field value, so a bare-string `rbac_enabled` raises `AttributeError`
— the exact crash recorded in the notebook's own output. -/
theorem format_crashes_on_bare_string_field :
    format_analysis_results "https://github.com/microsoft/PubSec-Info-Assistant"
        [("rbac_enabled", .vStr "The repository could not be analyzed")]
      = .error "AttributeError" := rfl

/-- Claim C2 (counterexample): on the empty result mapping the question key
`notes` is missing, yet its formatted cell is the empty string, not the
default answer `Unknown`. -/
theorem format_default_notes_is_empty_string :
    dictGet ([] : List (String × Value)) "notes" = none
    ∧ format_analysis_results "u" [] = .ok (formattedRow "u" [])
    ∧ dictGet (formattedRow "u" []) "Notes" = some (.vStr "")
    ∧ Value.vStr "" ≠ Value.vStr "Unknown" :=
  ⟨rfl, rfl, rfl, fun h => by injection h with h2; exact absurd h2 (by decide)⟩

/-- A missing question key renders the default confidence-bearing cell. -/
theorem confCellVal_default {m : List (String × Value)} {key : String}
    (hm : dictGet m key = none) : confCellVal m key = .vStr "Unknown (low)" := by
  rw [confCellVal, ansOf, confOf, hm]
  rfl

/-- A missing question key yields the default raw answer. -/
theorem ansOf_default {m : List (String × Value)} {key : String} (dflt : Value)
    (hm : dictGet m key = none) : ansOf m key dflt = dflt := by
  rw [ansOf, hm]
  rfl

/-- Claim C2 (amended): for every analysis-result mapping of per-question
dict objects, the formatted row has exactly the fixed column set in source
order; a missing confidence-bearing question key is filled with
`Unknown (low)`, a missing differentiator key with the bare answer
`Unknown` (no confidence part), and a missing `notes` key with the empty
string rather than `Unknown`. -/
theorem format_fixed_columns_and_defaults (repo_url : String)
    (m : List (String × Value)) (h : ∀ p ∈ m, isDict p.2 = true) :
    ∃ row, format_analysis_results repo_url m = .ok row
      ∧ row.map Prod.fst = formattedColumns
      ∧ (dictGet m "rbac_enabled" = none →
          dictGet row "RBAC Enabled?" = some (.vStr "Unknown (low)"))
      ∧ (dictGet m "azure_gov_ready" = none →
          dictGet row "Azure Gov Ready?" = some (.vStr "Unknown (low)"))
      ∧ (dictGet m "azure_secret_ready" = none →
          dictGet row "Azure Secret Ready" = some (.vStr "Unknown (low)"))
      ∧ (dictGet m "chat_history" = none →
          dictGet row "Chat History?" = some (.vStr "Unknown (low)"))
      ∧ (dictGet m "azure_services_count" = none →
          dictGet row "# of Azure Services?" = some (.vStr "Unknown (low)"))
      ∧ (dictGet m "architecture_diagram_present" = none →
          dictGet row "Arch Diagram" = some (.vStr "Unknown (low)"))
      ∧ (dictGet m "deployment_method" = none →
          dictGet row "Deployment Method" = some (.vStr "Unknown (low)"))
      ∧ (dictGet m "costs_estimate" = none →
          dictGet row "Costs Estimate" = some (.vStr "Unknown (low)"))
      ∧ (dictGet m "differentiators_from_asksage" = none →
          dictGet row "Differentiators from AskSage" = some (.vStr "Unknown"))
      ∧ (dictGet m "differentiators_from_niprgpt" = none →
          dictGet row "Differentiators from NIPRGPT" = some (.vStr "Unknown"))
      ∧ (dictGet m "differentiators_from_camogpt" = none →
          dictGet row "Differentiators from CamoGPT" = some (.vStr "Unknown"))
      ∧ (dictGet m "notes" = none →
          dictGet row "Notes" = some (.vStr "")) := by
  refine ⟨formattedRow repo_url m, format_eq_of_dict_fields repo_url h, rfl,
    ?_, ?_, ?_, ?_, ?_, ?_, ?_, ?_, ?_, ?_, ?_, ?_⟩
  · exact fun hm => congrArg some (confCellVal_default hm)
  · exact fun hm => congrArg some (confCellVal_default hm)
  · exact fun hm => congrArg some (confCellVal_default hm)
  · exact fun hm => congrArg some (confCellVal_default hm)
  · exact fun hm => congrArg some (confCellVal_default hm)
  · exact fun hm => congrArg some (confCellVal_default hm)
  · exact fun hm => congrArg some (confCellVal_default hm)
  · exact fun hm => congrArg some (confCellVal_default hm)
  · exact fun hm => congrArg some (ansOf_default _ hm)
  · exact fun hm => congrArg some (ansOf_default _ hm)
  · exact fun hm => congrArg some (ansOf_default _ hm)
  · exact fun hm => congrArg some (ansOf_default _ hm)


/-- Claim C2 (witness): a concrete one-question mapping of dict objects. -/
theorem format_fixed_columns_and_defaults_witness :
    (∀ p ∈ ([("notes", Value.vDict [("answer", Value.vStr "fine")])] :
        List (String × Value)), isDict p.2 = true)
    ∧ ∃ row, format_analysis_results "u"
          [("notes", Value.vDict [("answer", Value.vStr "fine")])] = .ok row
        ∧ row.map Prod.fst = formattedColumns
        ∧ (dictGet [("notes", Value.vDict [("answer", Value.vStr "fine")])]
              "rbac_enabled" = none →
            dictGet row "RBAC Enabled?" = some (.vStr "Unknown (low)"))
        ∧ (dictGet [("notes", Value.vDict [("answer", Value.vStr "fine")])]
              "azure_gov_ready" = none →
            dictGet row "Azure Gov Ready?" = some (.vStr "Unknown (low)"))
        ∧ (dictGet [("notes", Value.vDict [("answer", Value.vStr "fine")])]
              "azure_secret_ready" = none →
            dictGet row "Azure Secret Ready" = some (.vStr "Unknown (low)"))
        ∧ (dictGet [("notes", Value.vDict [("answer", Value.vStr "fine")])]
              "chat_history" = none →
            dictGet row "Chat History?" = some (.vStr "Unknown (low)"))
        ∧ (dictGet [("notes", Value.vDict [("answer", Value.vStr "fine")])]
              "azure_services_count" = none →
            dictGet row "# of Azure Services?" = some (.vStr "Unknown (low)"))
        ∧ (dictGet [("notes", Value.vDict [("answer", Value.vStr "fine")])]
              "architecture_diagram_present" = none →
            dictGet row "Arch Diagram" = some (.vStr "Unknown (low)"))
        ∧ (dictGet [("notes", Value.vDict [("answer", Value.vStr "fine")])]
              "deployment_method" = none →
            dictGet row "Deployment Method" = some (.vStr "Unknown (low)"))
        ∧ (dictGet [("notes", Value.vDict [("answer", Value.vStr "fine")])]
              "costs_estimate" = none →
            dictGet row "Costs Estimate" = some (.vStr "Unknown (low)"))
        ∧ (dictGet [("notes", Value.vDict [("answer", Value.vStr "fine")])]
              "differentiators_from_asksage" = none →
            dictGet row "Differentiators from AskSage" = some (.vStr "Unknown"))
        ∧ (dictGet [("notes", Value.vDict [("answer", Value.vStr "fine")])]
              "differentiators_from_niprgpt" = none →
            dictGet row "Differentiators from NIPRGPT" = some (.vStr "Unknown"))
        ∧ (dictGet [("notes", Value.vDict [("answer", Value.vStr "fine")])]
              "differentiators_from_camogpt" = none →
            dictGet row "Differentiators from CamoGPT" = some (.vStr "Unknown"))
        ∧ (dictGet [("notes", Value.vDict [("answer", Value.vStr "fine")])]
              "notes" = none →
            dictGet row "Notes" = some (.vStr "")) :=
  ⟨by intro p hp; simp only [List.mem_singleton] at hp; rw [hp]; rfl,
   format_fixed_columns_and_defaults "u"
     [("notes", Value.vDict [("answer", Value.vStr "fine")])]
     (by intro p hp; simp only [List.mem_singleton] at hp; rw [hp]; rfl)⟩

/-- Claim C3: the batch orchestrator produces rows exactly for the urls
whose analysis succeeded with a truthy result, in input order; in
particular three urls whose middle analysis fails yield exactly the first
and third rows, in that order. -/
theorem batch_rows_in_order_of_successes {α : Type}
    (fetch : String → Except String α) (extract : α → Except String Row) :
    (∀ urls : List String,
        ((analyze_multiple_repositories fetch extract urls).fst).getD []
          = (urls.filter (succeeds fetch extract)).map
              (fun u => mkRow u
                (((analyze_github_repository fetch extract u).fst).getD [])))
    ∧ (∀ A B C : String, ∀ rA rC : Row,
        (analyze_github_repository fetch extract A).fst = some rA → rA ≠ [] →
        (analyze_github_repository fetch extract B).fst = none →
        (analyze_github_repository fetch extract C).fst = some rC → rC ≠ [] →
        (analyze_multiple_repositories fetch extract [A, B, C]).fst
          = some [mkRow A rA, mkRow C rC]) := by
  constructor
  · intro urls
    rw [batch_rows_getD, batch_rows_filter]
  · intro A B C rA rC hA hrA hB hC hrC
    have sA : rowStep fetch extract A = some (mkRow A rA) := by
      simp only [rowStep, hA]
      simp [List.isEmpty_iff, hrA]
    have sB : rowStep fetch extract B = none := by
      simp only [rowStep, hB]
    have sC : rowStep fetch extract C = some (mkRow C rC) := by
      simp only [rowStep, hC]
      simp [List.isEmpty_iff, hrC]
    rw [analyze_multiple_repositories]
    simp only [List.filterMap_cons, sA, sB, sC, List.filterMap_nil]
    rfl

/-- Claim C3 (witness): concrete clients whose middle url fails. -/
theorem batch_rows_in_order_of_successes_witness :
    (analyze_github_repository branchFetch notesExtract "urlA").fst
        = some [("notes", Value.vNull)]
    ∧ ([("notes", Value.vNull)] : Row) ≠ []
    ∧ (analyze_github_repository branchFetch notesExtract "urlB").fst = none
    ∧ (analyze_multiple_repositories branchFetch notesExtract
          ["urlA", "urlB", "urlC"]).fst
        = some [mkRow "urlA" [("notes", Value.vNull)],
                mkRow "urlC" [("notes", Value.vNull)]] :=
  ⟨rfl, by simp, rfl,
   (batch_rows_in_order_of_successes branchFetch notesExtract).2
     "urlA" "urlB" "urlC" _ _ rfl (by simp) rfl rfl (by simp)⟩

/-- Claim C4: when the fetch stage or the extraction stage fails, the
single-repository orchestrator returns `None` and its printed output
contains the error message — a failing repository never raises out of the
orchestrator. -/
theorem analyze_returns_none_and_logs_on_error {α : Type}
    (fetch : String → Except String α) (extract : α → Except String Row)
    (url : String) (e : String) :
    (fetch url = .error e →
      (analyze_github_repository fetch extract url).fst = none
      ∧ ("Error extracting repository data: " ++ e)
          ∈ (analyze_github_repository fetch extract url).snd)
    ∧ (∀ d : α, fetch url = .ok d → extract d = .error e →
      (analyze_github_repository fetch extract url).fst = none
      ∧ ("Error during OpenAI analysis: " ++ e)
          ∈ (analyze_github_repository fetch extract url).snd) := by
  constructor
  · intro h
    simp [analyze_github_repository, h]
  · intro d h1 h2
    simp [analyze_github_repository, h1, h2]

/-- Claim C4 (witness): a failing fetch and a failing extraction, each
yielding `None` plus the logged message. -/
theorem analyze_returns_none_and_logs_on_error_witness :
    ((analyze_github_repository errFetch notesExtract "urlA").fst = none
      ∧ ("Error extracting repository data: " ++ "boom")
          ∈ (analyze_github_repository errFetch notesExtract "urlA").snd)
    ∧ ((analyze_github_repository okFetch errExtract "urlA").fst = none
      ∧ ("Error during OpenAI analysis: " ++ "bad response")
          ∈ (analyze_github_repository okFetch errExtract "urlA").snd) :=
  ⟨(analyze_returns_none_and_logs_on_error errFetch notesExtract "urlA" "boom").1 rfl,
   (analyze_returns_none_and_logs_on_error okFetch errExtract "urlA" "bad response").2
     "urlA" rfl rfl⟩

/-- Claim C5 (counterexample): on an empty url list the batch orchestrator
returns `None` — a null result, not an empty table — alongside the
`No valid analysis results` message. -/
theorem empty_batch_returns_none_not_empty_table :
    analyze_multiple_repositories branchFetch notesExtract []
        = (none, "No valid analysis results")
    ∧ (analyze_multiple_repositories branchFetch notesExtract []).fst
        ≠ some ([] : List Row) :=
  ⟨rfl, fun h => Option.noConfusion h⟩

/-- Claim C5 (amended): whenever no url yields a truthy analysis result —
in particular on the empty url list — the batch orchestrator returns
`None` (not a raised error, and not an empty table) and signals
`No valid analysis results`. -/
theorem batch_no_success_signals_no_valid_results {α : Type}
    (fetch : String → Except String α) (extract : α → Except String Row)
    (urls : List String) (h : ∀ u ∈ urls, rowStep fetch extract u = none) :
    analyze_multiple_repositories fetch extract urls
      = (none, "No valid analysis results") := by
  have hnil : urls.filterMap (rowStep fetch extract) = [] :=
    List.filterMap_eq_nil_iff.mpr h
  rw [analyze_multiple_repositories]
  simp [hnil]

/-- Claim C5 (witness): a url list whose only fetch fails. -/
theorem batch_no_success_signals_no_valid_results_witness :
    (∀ u ∈ (["urlA"] : List String), rowStep errFetch notesExtract u = none)
    ∧ analyze_multiple_repositories errFetch notesExtract ["urlA"]
        = (none, "No valid analysis results") :=
  ⟨by intro u hu; simp only [List.mem_singleton] at hu; rw [hu]; rfl,
   batch_no_success_signals_no_valid_results errFetch notesExtract ["urlA"]
     (by intro u hu; simp only [List.mem_singleton] at hu; rw [hu]; rfl)⟩


/-- Claim C6: the `replace` normalization maps the literal string `Yes` to
`True` and `No` to `False`, passes every other value through unchanged,
and in particular sends `Yes`, `No`, `True`, `7`, `[a, b]` to `True`,
`False`, `True`, `7`, `[a, b]`. -/
theorem replace_coerces_yes_no :
    (∀ v : Value, v ≠ .vStr "Yes" → v ≠ .vStr "No" → replaceYesNo v = v)
    ∧ replaceYesNo (.vStr "Yes") = .vBool true
    ∧ replaceYesNo (.vStr "No") = .vBool false
    ∧ replaceYesNo (.vBool true) = .vBool true
    ∧ replaceYesNo (.vNum 7) = .vNum 7
    ∧ replaceYesNo (.vList ["a", "b"]) = .vList ["a", "b"] := by
  refine ⟨?_, rfl, rfl, rfl, rfl, rfl⟩
  intro v h1 h2
  cases v with
  | vStr s =>
    rw [replaceYesNo, if_neg (fun hs => h1 (by rw [hs])),
      if_neg (fun hs => h2 (by rw [hs]))]
  | vBool b => rfl
  | vNum n => rfl
  | vList xs => rfl
  | vNull => rfl
  | vDict fs => rfl

/-- Claim C6 (witness): the pass-through clause applied at the number 7. -/
theorem replace_coerces_yes_no_witness :
    Value.vNum 7 ≠ Value.vStr "Yes"
    ∧ Value.vNum 7 ≠ Value.vStr "No"
    ∧ replaceYesNo (Value.vNum 7) = Value.vNum 7 :=
  ⟨fun h => Value.noConfusion h, fun h => Value.noConfusion h,
   replace_coerces_yes_no.1 (Value.vNum 7)
     (fun h => Value.noConfusion h) (fun h => Value.noConfusion h)⟩

/-- Claim C7: on every `AnalysisResult`-derived row — cells are structured
`AnswerRecord` dicts or the missing-cell placeholder — applying the
extract-answer-then-coerce normalization step twice equals applying it once. -/
theorem normalization_step_idempotent (row : List Value)
    (h : ∀ v ∈ row, derivedCell v) :
    (row.map normStep).map normStep = row.map normStep := by
  rw [List.map_map]
  refine List.map_congr_left ?_
  intro v hv
  exact normStep_idem_of_derived (h v hv)

/-- Claim C7 (witness): a two-cell derived row with a `Yes` answer and a
missing cell. -/
theorem normalization_step_idempotent_witness :
    (∀ v ∈ [AnswerRecord.toValue ⟨.aStr "Yes", "uses Cosmos DB", "high"⟩,
        Value.vNull], derivedCell v)
    ∧ (([AnswerRecord.toValue ⟨.aStr "Yes", "uses Cosmos DB", "high"⟩,
          Value.vNull].map normStep).map normStep
        = [AnswerRecord.toValue ⟨.aStr "Yes", "uses Cosmos DB", "high"⟩,
            Value.vNull].map normStep) := by
  have hd : ∀ v ∈ [AnswerRecord.toValue ⟨.aStr "Yes", "uses Cosmos DB", "high"⟩,
      Value.vNull], derivedCell v := by
    intro v hv
    simp only [List.mem_cons, List.mem_singleton, List.not_mem_nil, or_false] at hv
    rcases hv with rfl | rfl
    · exact Or.inl ⟨_, rfl⟩
    · exact Or.inr rfl
  exact ⟨hd, normalization_step_idempotent _ hd⟩

/-- Claim C8: the repository identity is the last path segment of the url
after trailing slashes are stripped; both slash-terminated and bare
repository urls derive `repo`. -/
theorem repo_name_strips_trailing_slash :
    repoNameOf "https://github.com/org/repo/" = "repo"
    ∧ repoNameOf "https://github.com/org/repo" = "repo" :=
  ⟨rfl, rfl⟩

/-! ### Helper lemmas about the DataFrame construction -/

/-- An aligned DataFrame row has exactly the table's columns as keys. -/
theorem alignRow_keys (cols : List String) (r : Row) :
    (alignRow cols r).map Prod.fst = cols := by
  induction cols with
  | nil => rfl
  | cons c cs ih => simp only [alignRow, List.map_cons] at ih ⊢; rw [ih]

/-- Filtering against the empty accumulator keeps every key. -/
theorem filter_not_contains_nil (xs : List String) :
    xs.filter (fun k => !(([] : List String).contains k)) = xs := by
  induction xs with
  | nil => rfl
  | cons x xs ih =>
    show x :: xs.filter (fun k => !(([] : List String).contains k)) = x :: xs
    rw [ih]

/-- The first row's keys all survive the column union. -/
theorem colStep_nil (r : Row) : colStep [] r = r.map Prod.fst := by
  rw [colStep, List.nil_append, filter_not_contains_nil]

/-- The column union only ever appends to the accumulator. -/
theorem foldl_colStep_extends (l : List Row) :
    ∀ acc : List String, ∃ t, l.foldl colStep acc = acc ++ t := by
  induction l with
  | nil => exact fun acc => ⟨[], (List.append_nil acc).symm⟩
  | cons r rest ih =>
    intro acc
    obtain ⟨t1, ht1⟩ := ih (colStep acc r)
    exact ⟨_, by rw [List.foldl_cons, ht1, colStep, List.append_assoc]⟩

/-- The table columns start with the first row's keys, in order. -/
theorem columnsOf_cons (r0 : Row) (rest : List Row) :
    ∃ t, columnsOf (r0 :: rest) = r0.map Prod.fst ++ t := by
  rw [columnsOf, List.foldl_cons, colStep_nil]
  exact foldl_colStep_extends rest _

/-- A Python dict update keeps the existing key order, at most appending
the new key. -/
theorem dictSet_keys (l : List (String × Value)) (k : String) (v : Value) :
    ∃ t, (dictSet l k v).map Prod.fst = l.map Prod.fst ++ t := by
  induction l with
  | nil => exact ⟨[k], rfl⟩
  | cons p rest ih =>
    by_cases hk : p.1 = k
    · refine ⟨[], ?_⟩
      simp only [dictSet]
      rw [if_pos hk]
      simp [hk]
    · obtain ⟨t, ht⟩ := ih
      refine ⟨t, ?_⟩
      simp only [dictSet, if_neg hk, List.map_cons, ht, List.cons_append]

/-- Merging updates keeps the base dict's key order as a prefix. -/
theorem dictMerge_keys (e : List (String × Value)) :
    ∀ acc : List (String × Value),
      ∃ t, (dictMerge acc e).map Prod.fst = acc.map Prod.fst ++ t := by
  induction e with
  | nil => exact fun acc => ⟨[], (List.append_nil _).symm⟩
  | cons p rest ih =>
    intro acc
    obtain ⟨t1, ht1⟩ :=
      ih (dictSet acc p.1 p.2)
    obtain ⟨t0, ht0⟩ := dictSet_keys acc p.1 p.2
    refine ⟨t0 ++ t1, ?_⟩
    have hstep : dictMerge acc (p :: rest) = dictMerge (dictSet acc p.1 p.2) rest := rfl
    rw [hstep, ht1, ht0, List.append_assoc]

/-- Every batch row dict has the repository identity as its first key. -/
theorem mkRow_keys (url : String) (r : Row) :
    ∃ t, (mkRow url r).map Prod.fst = "Repository Name" :: t := by
  obtain ⟨t, ht⟩ := dictMerge_keys r [("Repository Name", .vStr (repoNameOf url))]
  exact ⟨t, by rw [mkRow, ht]; rfl⟩

/-- A batch run returns rows exactly when the collected row list is
non-empty, and then returns that list. -/
theorem batch_fst_some {α : Type} {fetch : String → Except String α}
    {extract : α → Except String Row} {urls : List String} {rows : List Row}
    (h : (analyze_multiple_repositories fetch extract urls).fst = some rows) :
    rows = urls.filterMap (rowStep fetch extract)
    ∧ urls.filterMap (rowStep fetch extract) ≠ [] := by
  rw [analyze_multiple_repositories] at h
  split at h
  · exact Option.noConfusion h
  · next hcond =>
    refine ⟨(Option.some.inj h).symm, ?_⟩
    intro hnil
    exact hcond (by rw [hnil]; rfl)

/-- Claim C9 (counterexample): a batch run whose responses carry only the
`notes` key yields a table whose shared column list is not the repository
identity followed by the QuestionSpec catalog in declared order. -/
theorem batch_table_columns_not_catalog :
    comparisonTable okFetch notesExtract
        ["https://github.com/org/alpha", "https://github.com/org/beta"]
      = some [[("Repository Name", Value.vStr "alpha"), ("notes", Value.vNull)],
              [("Repository Name", Value.vStr "beta"), ("notes", Value.vNull)]]
    ∧ [("Repository Name", Value.vStr "alpha"), ("notes", Value.vNull)].map Prod.fst
        = ["Repository Name", "notes"]
    ∧ ["Repository Name", "notes"] ≠ "Repository Name" :: questionSpecKeys :=
  ⟨rfl, rfl, by decide⟩

/-- Claim C9 (amended): every row of the comparison table (the DataFrame
built from the collected row dicts) has the identical column set, with the
repository identity column first; the remaining columns are the union of
the responses' own keys in first-appearance order — not the QuestionSpec
catalog in catalog-declared order — and a key missing from a response
yields a `NaN` cell, not an `Unknown` sentinel. -/
theorem batch_table_columns_identical {α : Type}
    (fetch : String → Except String α) (extract : α → Except String Row)
    (urls : List String) (table : List Row)
    (h : comparisonTable fetch extract urls = some table) :
    (∀ row ∈ table,
        row.map Prod.fst = columnsOf (urls.filterMap (rowStep fetch extract)))
    ∧ ∃ t, columnsOf (urls.filterMap (rowStep fetch extract))
        = "Repository Name" :: t := by
  rw [comparisonTable] at h
  obtain ⟨rows, hrows, htable⟩ := Option.map_eq_some'.mp h
  obtain ⟨hr, hne⟩ := batch_fst_some hrows
  subst hr
  constructor
  · intro row hrow
    rw [← htable, pdDataFrame, List.mem_map] at hrow
    obtain ⟨r, hrmem, hral⟩ := hrow
    rw [← hral, alignRow_keys]
  · obtain ⟨r0, rest, hcons⟩ := List.exists_cons_of_ne_nil hne
    have hr0 : r0 ∈ urls.filterMap (rowStep fetch extract) := by
      rw [hcons]; exact List.mem_cons_self _ _
    rw [List.mem_filterMap] at hr0
    obtain ⟨u, hu, hstep⟩ := hr0
    rw [rowStep] at hstep
    have hr0keys : ∃ t0, r0.map Prod.fst = "Repository Name" :: t0 := by
      split at hstep
      · next r hr =>
        by_cases he : r.isEmpty
        · rw [if_pos he] at hstep
          exact Option.noConfusion hstep
        · rw [if_neg he] at hstep
          rw [← Option.some.inj hstep]
          exact mkRow_keys u r
      · exact Option.noConfusion hstep
    obtain ⟨t0, ht0⟩ := hr0keys
    obtain ⟨t1, ht1⟩ := columnsOf_cons r0 rest
    rw [hcons, ht1, ht0]
    exact ⟨t0 ++ t1, rfl⟩

/-- Claim C9 (witness): two responses with different key sets still yield
one shared column list, identity first, with `NaN` filling the gaps. -/
theorem batch_table_columns_identical_witness :
    comparisonTable okFetch branchExtract
        ["https://github.com/org/alpha", "https://github.com/org/beta"]
      = some [[("Repository Name", Value.vStr "alpha"),
               ("rbac_enabled", Value.vNull), ("notes", Value.vNull)],
              [("Repository Name", Value.vStr "beta"),
               ("rbac_enabled", Value.vNull), ("notes", Value.vNull)]]
    ∧ ((∀ row ∈ [[("Repository Name", Value.vStr "alpha"),
            ("rbac_enabled", Value.vNull), ("notes", Value.vNull)],
          [("Repository Name", Value.vStr "beta"),
            ("rbac_enabled", Value.vNull), ("notes", Value.vNull)]],
        row.map Prod.fst
          = columnsOf (["https://github.com/org/alpha",
              "https://github.com/org/beta"].filterMap
                (rowStep okFetch branchExtract)))
      ∧ ∃ t, columnsOf (["https://github.com/org/alpha",
            "https://github.com/org/beta"].filterMap
              (rowStep okFetch branchExtract))
          = "Repository Name" :: t) :=
  ⟨rfl,
   batch_table_columns_identical okFetch branchExtract
     ["https://github.com/org/alpha", "https://github.com/org/beta"] _ rfl⟩

/-- Claim C10: in the `answers_df` cell lambda, a dict cell without an
`answer` key maps to `None` (not the `Unknown` sentinel), a non-dict cell
passes through unchanged, and the `value`-key fallback is dead code: the
lambda is extensionally the two-branch function without it. -/
theorem answer_cell_null_default_and_dead_branch :
    (∀ x : Value, isDict x = false → answerCell x = x)
    ∧ (∀ d : List (String × Value), dictGet d "answer" = none →
        answerCell (.vDict d) = .vNull)
    ∧ Value.vNull ≠ Value.vStr "Unknown"
    ∧ (∀ x : Value, answerCell x = if isDict x then dictGetNone x "answer" else x) := by
  refine ⟨fun x hx => answerCell_of_not_dict hx, ?_,
    fun h => Value.noConfusion h, answerCell_elim⟩
  intro d hd
  rw [answerCell_elim]
  simp only [isDict, if_true]
  rw [dictGetNone, hd]
  rfl

/-- Claim C10 (witness): a boolean cell passes through; a dict cell with
only an `explanation` key maps to `None`. -/
theorem answer_cell_null_default_and_dead_branch_witness :
    (isDict (Value.vBool true) = false
      ∧ answerCell (Value.vBool true) = Value.vBool true)
    ∧ (dictGet [("explanation", Value.vNull)] "answer" = none
      ∧ answerCell (Value.vDict [("explanation", Value.vNull)]) = Value.vNull) :=
  ⟨⟨rfl, answer_cell_null_default_and_dead_branch.1 (Value.vBool true) rfl⟩,
   ⟨rfl, answer_cell_null_default_and_dead_branch.2.1
      [("explanation", Value.vNull)] rfl⟩⟩

end AcceleratorInfo
